import Mathlib

/-!
Shallow embedding of the casdoor python SDK (`src/casdoor/async_main.py`):
the OAuth2 payload builder, token request and refresh flow, JWT
verification, the `enforce` call, and the user CRUD helpers, together with
proofs of the behavioural properties stated for them.
-/

namespace Casdoor

/-- Decoded JSON values, as produced by the HTTP collaborator JSON
decoder (`response.json()`).  Python decodes JSON booleans to `bool`,
strings to `str`, numbers, `null`, arrays and objects. -/
inductive JsonVal where
  | null : JsonVal
  | bool : Bool → JsonVal
  | num : Int → JsonVal
  | str : String → JsonVal
  | arr : List JsonVal → JsonVal
  | obj : List (String × JsonVal) → JsonVal

/-- Lookup in a decoded JSON object / Python dict, first binding wins;
this is Python `dict.get(key)`: `some v` when the key is present,
`none` (Python `None`) when absent. -/
def dictGet (d : List (String × JsonVal)) (key : String) : Option JsonVal :=
  (d.find? fun kv => kv.fst == key).map Prod.snd

/-- Lookup in a string-valued parameter dict (query/form parameters). -/
def lookupStr (d : List (String × String)) (key : String) : Option String :=
  (d.find? fun kv => kv.fst == key).map Prod.snd

/-- Predicate `leadsWith pat l`: true when `pat` is an initial segment of `l`. -/
def leadsWith : List Char → List Char → Bool
  | [], _ => true
  | _ :: _, [] => false
  | a :: as, b :: bs => a == b && leadsWith as bs

/-- Predicate `containsChars pat l`: the pattern occurs as a contiguous run in `l`
(Python `pat in s` for non-empty `pat`). -/
def containsChars (pat : List Char) : List Char → Bool
  | [] => pat.isEmpty
  | c :: cs => leadsWith pat (c :: cs) || containsChars pat cs

/-- Python `sub in s` substring test on strings. -/
def strContains (s sub : String) : Bool :=
  containsChars sub.data s.data

/-- Fuel-driven scan for `replaceChars`: each step consumes at least one
character, so fuel equal to the length of the list suffices. -/
def replaceCharsAux (pat rep : List Char) : Nat → List Char → List Char
  | 0, l => l
  | _ + 1, [] => []
  | fuel + 1, c :: cs =>
    if pat ≠ [] ∧ leadsWith pat (c :: cs) then
      rep ++ replaceCharsAux pat rep fuel (List.drop (pat.length - 1) cs)
    else
      c :: replaceCharsAux pat rep fuel cs

/-- Python `s.replace(pat, rep)`: replace every non-overlapping
occurrence of `pat`, scanning left to right.  (For the empty pattern the
source never calls it, and we return `s` unchanged.) -/
def replaceChars (pat rep l : List Char) : List Char :=
  replaceCharsAux pat rep l.length l

/-- Python `s.replace(pat, rep)` on strings. -/
def pyReplace (s pat rep : String) : String :=
  ⟨replaceChars pat.data rep.data s.data⟩

/-- Python truthiness of an `Optional[str]` argument: `None` and the
empty string are falsy, every other string is truthy. -/
def truthyOpt : Option String → Bool
  | none => false
  | some s => !s.isEmpty

/-- The configuration fields stored by `AsyncCasdoorSDK.__init__`
(`endpoint`, `client_id`, `client_secret`, `certificate`, `org_name`,
`application_name`).  `front_endpoint` is the (optional) constructor
argument, before the stored value is derived. -/
structure Config where
  endpoint : String
  client_id : String
  client_secret : String
  certificate : String
  org_name : String
  application_name : String
  front_endpoint : Option String

/-- The stored `self.front_endpoint`: `__init__` keeps a truthy
`front_endpoint` argument unchanged and otherwise derives
`endpoint.replace(":8000", ":7001")`. -/
def storedFrontEndpoint (endpoint : String) (front_endpoint : Option String) : String :=
  match front_endpoint with
  | some f => if f.isEmpty then pyReplace endpoint ":8000" ":7001" else f
  | none => pyReplace endpoint ":8000" ":7001"

/-- Source `self.algorithms = ["RS256"]`, fixed at construction. -/
def sdkAlgorithms : List String := ["RS256"]

/-- Embeds `__get_payload_for_authorization_code`. -/
def get_payload_for_authorization_code (cfg : Config) (code : String) :
    List (String × String) :=
  [("grant_type", "authorization_code"),
   ("client_id", cfg.client_id),
   ("client_secret", cfg.client_secret),
   ("code", code)]

/-- Embeds `__get_payload_for_password_credentials`. -/
def get_payload_for_password_credentials (cfg : Config) (username password : String) :
    List (String × String) :=
  [("grant_type", "password"),
   ("client_id", cfg.client_id),
   ("client_secret", cfg.client_secret),
   ("username", username),
   ("password", password)]

/-- Embeds `__get_payload_for_client_credentials`. -/
def get_payload_for_client_credentials (cfg : Config) :
    List (String × String) :=
  [("grant_type", "client_credentials"),
   ("client_id", cfg.client_id),
   ("client_secret", cfg.client_secret)]

/-- Embeds `_get_payload_for_access_token_request`: `if code: ... elif username
and password: ... else: ...` with Python truthiness on the optional
string arguments. -/
def get_payload_for_access_token_request (cfg : Config)
    (code username password : Option String) : List (String × String) :=
  if truthyOpt code then
    get_payload_for_authorization_code cfg (code.getD "")
  else if truthyOpt username && truthyOpt password then
    get_payload_for_password_credentials cfg (username.getD "") (password.getD "")
  else
    get_payload_for_client_credentials cfg

/-- The remote Casdoor server, as seen by the SDK: a function from the
POSTed form payload to the decoded JSON body it answers with.  The SDK
returns these bodies as-is (passthrough), so the oracle determines the
observable values. -/
structure ServerEnv where
  tokenResponse : List (String × String) → List (String × JsonVal)
  refreshResponse : List (String × String) → List (String × JsonVal)

/-- Embeds `_oauth_token_request`: POST the payload to
`{endpoint}/api/login/oauth/access_token` and return the decoded JSON
body.  The request target and the answer are modelled together. -/
def oauth_token_request_raw (env : ServerEnv) (payload : List (String × String)) :
    List (String × JsonVal) :=
  env.tokenResponse payload

/-- Embeds `oauth_token_request`: build the payload from `(code, username,
password)` and issue the token request; returns the full decoded response. -/
def oauth_token_request (env : ServerEnv) (cfg : Config)
    (code username password : Option String) : List (String × JsonVal) :=
  oauth_token_request_raw env
    (get_payload_for_access_token_request cfg code username password)

/-- Embeds `get_oauth_token`: `response = await self.oauth_token_request(...);
token = response; return token`. -/
def get_oauth_token (env : ServerEnv) (cfg : Config)
    (code username password : Option String) : List (String × JsonVal) :=
  let response := oauth_token_request env cfg code username password
  let token := response
  token

/-- Embeds `refresh_token_request`: POST the refresh payload to
`{endpoint}/api/login/oauth/refresh_token` and return the decoded body. -/
def refresh_token_request (env : ServerEnv) (cfg : Config)
    (refresh_token : String) (scope : String) : List (String × JsonVal) :=
  env.refreshResponse
    [("grant_type", "refresh_token"),
     ("client_id", cfg.client_id),
     ("client_secret", cfg.client_secret),
     ("scope", scope),
     ("refresh_token", refresh_token)]

/-- Embeds `refresh_oauth_token` (the spec name `getAccessToken`):
`r = await self.refresh_token_request(...); return r.get("access_token")`. -/
def refresh_oauth_token (env : ServerEnv) (cfg : Config)
    (refresh_token : String) (scope : String) : Option JsonVal :=
  dictGet (refresh_token_request env cfg refresh_token scope) "access_token"

/-- Abstract model of a bearer token as the JWT library sees it: whether
it is a well-formed three-part structure, the signing algorithm named in
its header, the identity of the key that produced its signature (an
abstract key identifier — a signature is valid under public key `k` iff
`signerKey = k`), its audience claim, whether its expiry claim lies in
the future at verification time, and its decoded claims. -/
structure Token where
  wellFormed : Bool
  alg : String
  signerKey : Nat
  aud : String
  expInFuture : Bool
  claims : List (String × JsonVal)

/-- The verification failures of `jwt.decode` plus the certificate-parse
failure of `x509.load_pem_x509_certificate` (the spec name
`MalformedTokenError`, `SignatureError`, `TokenExpiredError`,
`AudienceMismatchError`, `CertificateError`). -/
inductive JwtError where
  | malformedToken : JwtError
  | invalidAlgorithm : JwtError
  | invalidSignature : JwtError
  | tokenExpired : JwtError
  | audienceMismatch : JwtError
  | certificateError : JwtError

/-- Model of `jwt.decode(token, key, algorithms=..., audience=...)`:
reject a malformed token, a token whose header algorithm is outside the
allow-list, a signature not produced by `key`, an expired token, and an
audience claim differing from the expected audience; otherwise return
the decoded claims. -/
def jwtDecode (t : Token) (key : Nat) (algorithms : List String)
    (audience : String) : Except JwtError (List (String × JsonVal)) :=
  if !t.wellFormed then Except.error JwtError.malformedToken
  else if !(algorithms.contains t.alg) then Except.error JwtError.invalidAlgorithm
  else if t.signerKey ≠ key then Except.error JwtError.invalidSignature
  else if !t.expInFuture then Except.error JwtError.tokenExpired
  else if t.aud ≠ audience then Except.error JwtError.audienceMismatch
  else Except.ok t.claims

/-- Model of `x509.load_pem_x509_certificate(...).public_key()`: a
partial map from PEM certificate text to the abstract identifier of the
certificate public key (`none` when the text is not valid PEM/X.509). -/
structure CertEnv where
  parse : String → Option Nat

/-- Embeds `parse_jwt_token`: load the configured PEM certificate, extract its
public key, and decode the bearer token with the fixed algorithm
allow-list and `audience=self.client_id`. -/
def parse_jwt_token (env : CertEnv) (cfg : Config) (t : Token) :
    Except JwtError (List (String × JsonVal)) :=
  match env.parse cfg.certificate with
  | none => Except.error JwtError.certificateError
  | some key => jwtDecode t key sdkAlgorithms cfg.client_id

/-- Whether a verification result delivered claims. -/
def deliversClaims : Except JwtError (List (String × JsonVal)) → Bool
  | Except.ok _ => true
  | Except.error _ => false

/-- A delivered HTTP response as the `enforce` call inspects it: status
code, the `content-type` header, and the decoded JSON body. -/
structure HttpResponse where
  status : Nat
  contentType : String
  body : JsonVal

/-- The spec name `ResponseFormatError` (`ValueError` in the source). -/
inductive EnforceError where
  | responseFormatError : EnforceError

/-- Embeds `enforce`, from the delivered response on: raise unless the status
is 200 and the `content-type` header contains `"json"`; decode the body;
raise unless the decoded body is a boolean; return that boolean. -/
def enforce (resp : HttpResponse) : Except EnforceError Bool :=
  if resp.status ≠ 200 || !(strContains resp.contentType "json") then
    Except.error EnforceError.responseFormatError
  else
    match resp.body with
    | JsonVal.bool b => Except.ok b
    | _ => Except.error EnforceError.responseFormatError

/-- Embeds `get_user_count`: the query parameter dict, with `isOnline` set to
`""` when `is_online is None` and to `"1"`/`"0"` otherwise. -/
def get_user_count_params (cfg : Config) (is_online : Option Bool) :
    List (String × String) :=
  [("owner", cfg.org_name),
   ("clientId", cfg.client_id),
   ("clientSecret", cfg.client_secret),
   ("isOnline",
     match is_online with
     | none => ""
     | some b => if b then "1" else "0")]

/-- Modelled from the spec: the `User` record (its module `user.py` is
not in the source tree; the spec treats user records as opaque JSON
documents with at least `owner` and `name` fields).  `otherFields`
stands for every remaining field of the record. -/
structure User where
  owner : String
  name : String
  otherFields : List (String × JsonVal)

/-- Modelled from the spec: `User.to_dict` serializes the full user
object — every field, including `owner` and `name`. -/
def User.to_dict (u : User) : List (String × JsonVal) :=
  [("owner", JsonVal.str u.owner), ("name", JsonVal.str u.name)] ++ u.otherFields

/-- The request `modify_user` issues: URL, the `id` query identifier,
the query authentication pair, and the serialized JSON body. -/
structure UserRequest where
  url : String
  queryId : String
  clientIdParam : String
  clientSecretParam : String
  body : List (String × JsonVal)

/-- Embeds `modify_user`: overwrite `user.owner` with the configured org name,
build `id = f"{user.owner}/{user.name}"` from the overwritten record,
and serialize the full record as the body.  The first component is the
caller user object after the in-place mutation. -/
def modify_user (cfg : Config) (method : String) (u : User) : User × UserRequest :=
  let u2 : User := { u with owner := cfg.org_name }
  (u2,
   { url := cfg.endpoint ++ "/api/" ++ method
     queryId := u2.owner ++ "/" ++ u2.name
     clientIdParam := cfg.client_id
     clientSecretParam := cfg.client_secret
     body := User.to_dict u2 })

/-- Embeds `add_user`. -/
def add_user (cfg : Config) (u : User) : User × UserRequest :=
  modify_user cfg "add-user" u

/-- Embeds `update_user`. -/
def update_user (cfg : Config) (u : User) : User × UserRequest :=
  modify_user cfg "update-user" u

/-- Embeds `delete_user`. -/
def delete_user (cfg : Config) (u : User) : User × UserRequest :=
  modify_user cfg "delete-user" u

/-! Concrete sample values used by witnesses and counterexamples. -/

/-- A concrete SDK configuration. -/
def sampleCfg : Config :=
  { endpoint := "http://localhost:8000"
    client_id := "cid"
    client_secret := "csecret"
    certificate := "PEMCERT"
    org_name := "built-in"
    application_name := "app"
    front_endpoint := none }

/-- A concrete certificate environment: the configured PEM text parses
to the public key with identifier `7`; every other text is invalid. -/
def wCertEnv : CertEnv :=
  { parse := fun s => if s = "PEMCERT" then some 7 else none }

/-- A token with valid signature, algorithm and expiry but a wrong
audience claim. -/
def audToken : Token :=
  { wellFormed := true
    alg := "RS256"
    signerKey := 7
    aud := "someone-else"
    expInFuture := true
    claims := [("sub", JsonVal.str "alice")] }

/-- A token signed by a key (`8`) other than the configured certificate
key (`7`), with everything else valid. -/
def badSigToken : Token :=
  { wellFormed := true
    alg := "RS256"
    signerKey := 8
    aud := "cid"
    expInFuture := true
    claims := [("sub", JsonVal.str "alice")] }

/-- A concrete server: refreshing with `"good-rt"` yields a response
carrying `access_token`; any other refresh token yields an error body
without that field. -/
def wServerEnv : ServerEnv :=
  { tokenResponse := fun payload =>
      [("access_token", JsonVal.str "tokA"),
       ("refresh_token", JsonVal.str "refB"),
       ("token_type", JsonVal.str "Bearer"),
       ("granted", JsonVal.str ((lookupStr payload "grant_type").getD ""))]
    refreshResponse := fun payload =>
      if lookupStr payload "refresh_token" = some "good-rt" then
        [("access_token", JsonVal.str "tok123"),
         ("token_type", JsonVal.str "Bearer")]
      else
        [("error", JsonVal.str "invalid_grant")] }

/-- A delivered enforce response: status 200, JSON content type,
boolean body `true`. -/
def okResp : HttpResponse :=
  { status := 200
    contentType := "application/json; charset=utf-8"
    body := JsonVal.bool true }

/-! Claims. -/

/-- C1 counterexample: `code = some ""` is a present `code` argument,
yet with full password credentials the builder produces the password
payload, not the authorization-code payload the claim requires whenever
`code` is present.  (Source: `if code:` uses Python truthiness, so the
empty string falls through.) -/
theorem claim_C1_counterexample :
    (some "" : Option String).isSome = true ∧
    get_payload_for_access_token_request sampleCfg (some "") (some "u") (some "p") =
      get_payload_for_password_credentials sampleCfg "u" "p" ∧
    get_payload_for_access_token_request sampleCfg (some "") (some "u") (some "p") ≠
      get_payload_for_authorization_code sampleCfg "" := by
  refine ⟨rfl, rfl, ?_⟩
  decide

/-- C1 (amended): with presence read as Python truthiness (a `None` or
empty-string argument counts as absent), the builder follows the strict
precedence: a truthy `code` yields the authorization-code payload
regardless of the other fields; otherwise truthy `username` and
`password` together yield the password payload; every other input —
including partial credentials — yields the client-credentials payload. -/
theorem claim_C1 (cfg : Config) (code username password : Option String) :
    (truthyOpt code = true →
      get_payload_for_access_token_request cfg code username password =
        [("grant_type", "authorization_code"),
         ("client_id", cfg.client_id),
         ("client_secret", cfg.client_secret),
         ("code", code.getD "")]) ∧
    (truthyOpt code = false → truthyOpt username = true → truthyOpt password = true →
      get_payload_for_access_token_request cfg code username password =
        [("grant_type", "password"),
         ("client_id", cfg.client_id),
         ("client_secret", cfg.client_secret),
         ("username", username.getD ""),
         ("password", password.getD "")]) ∧
    (truthyOpt code = false →
      truthyOpt username = false ∨ truthyOpt password = false →
      get_payload_for_access_token_request cfg code username password =
        [("grant_type", "client_credentials"),
         ("client_id", cfg.client_id),
         ("client_secret", cfg.client_secret)]) := by
  refine ⟨?_, ?_, ?_⟩
  · intro h
    simp [get_payload_for_access_token_request, h,
      get_payload_for_authorization_code]
  · intro h1 h2 h3
    simp [get_payload_for_access_token_request, h1, h2, h3,
      get_payload_for_password_credentials]
  · intro h1 h2
    rcases h2 with h | h <;>
      simp [get_payload_for_access_token_request, h1, h,
        get_payload_for_client_credentials]

/-- Witness for C1 at a concrete input with a non-empty code. -/
theorem claim_C1_witness :
    get_payload_for_access_token_request sampleCfg (some "c0") (some "u") (some "p") =
      [("grant_type", "authorization_code"),
       ("client_id", sampleCfg.client_id),
       ("client_secret", sampleCfg.client_secret),
       ("code", (some "c0" : Option String).getD "")] :=
  (claim_C1 sampleCfg (some "c0") (some "u") (some "p")).1 rfl

/-- C2: a token whose audience claim differs from the configured
`client_id` is rejected with the audience-mismatch error — and hence no
claims are delivered — even though its signature is valid under the
configured certificate (it is well formed, its algorithm is in the fixed
allow-list and it was signed by the certificate key) and its expiry lies
in the future. -/
theorem claim_C2 (env : CertEnv) (cfg : Config) (t : Token) (k : Nat)
    (hpem : env.parse cfg.certificate = some k)
    (hwf : t.wellFormed = true)
    (halg : sdkAlgorithms.contains t.alg = true)
    (hsig : t.signerKey = k)
    (hexp : t.expInFuture = true)
    (haud : t.aud ≠ cfg.client_id) :
    parse_jwt_token env cfg t = Except.error JwtError.audienceMismatch ∧
    deliversClaims (parse_jwt_token env cfg t) = false := by
  have halg2 : t.alg ∈ sdkAlgorithms := by simpa using halg
  have h : parse_jwt_token env cfg t = Except.error JwtError.audienceMismatch := by
    simp [parse_jwt_token, hpem, jwtDecode, hwf, halg2, hsig, hexp, haud]
  exact ⟨h, by simp [h, deliversClaims]⟩

/-- Witness for C2 at a concrete configuration and token. -/
theorem claim_C2_witness :
    parse_jwt_token wCertEnv sampleCfg audToken = Except.error JwtError.audienceMismatch ∧
    deliversClaims (parse_jwt_token wCertEnv sampleCfg audToken) = false :=
  claim_C2 wCertEnv sampleCfg audToken 7 rfl rfl rfl rfl rfl (by decide)

/-- C3: a token signed by a key other than the public key extracted from
the configured certificate, or whose header algorithm lies outside the
fixed allow-list `["RS256"]`, fails closed: verification never delivers
a claims mapping. -/
theorem claim_C3 (env : CertEnv) (cfg : Config) (t : Token) (k : Nat)
    (hpem : env.parse cfg.certificate = some k)
    (hbad : t.signerKey ≠ k ∨ sdkAlgorithms.contains t.alg = false) :
    deliversClaims (parse_jwt_token env cfg t) = false := by
  have h : deliversClaims (jwtDecode t k sdkAlgorithms cfg.client_id) = false := by
    unfold jwtDecode
    split_ifs with h1 h2 h3 h4 h5 <;> try rfl
    exfalso
    rcases hbad with h | h
    · exact h3 h
    · exact absurd h2 (by simpa using h)
  simpa [parse_jwt_token, hpem] using h

/-- Witness for C3: a token signed by key 8 while the certificate key is 7. -/
theorem claim_C3_witness :
    deliversClaims (parse_jwt_token wCertEnv sampleCfg badSigToken) = false :=
  claim_C3 wCertEnv sampleCfg badSigToken 7 rfl (Or.inl (by decide))

/-- C4: on a delivered response, `enforce` returns `true` exactly when
the status is 200, the content type is JSON and the decoded body is the
boolean `true`; a non-200 status or a non-JSON content type raises the
response-format error, as does a decoded body that is not a boolean; and
no outcome other than a boolean result or that error is possible. -/
theorem claim_C4 (resp : HttpResponse) :
    (resp.status = 200 → strContains resp.contentType "json" = true →
      resp.body = JsonVal.bool true → enforce resp = Except.ok true) ∧
    (resp.status ≠ 200 ∨ strContains resp.contentType "json" = false →
      enforce resp = Except.error EnforceError.responseFormatError) ∧
    ((∀ b : Bool, resp.body ≠ JsonVal.bool b) →
      enforce resp = Except.error EnforceError.responseFormatError) ∧
    (enforce resp = Except.error EnforceError.responseFormatError ∨
      enforce resp = Except.ok true ∨ enforce resp = Except.ok false) := by
  refine ⟨?_, ?_, ?_, ?_⟩
  · intro h1 h2 h3
    simp [enforce, h1, h2, h3]
  · intro h
    rcases h with h | h <;> simp [enforce, h]
  · intro h
    unfold enforce
    split
    · rfl
    · cases hb : resp.body <;> first | rfl | exact absurd hb (h _)
  · cases he : enforce resp with
    | error e =>
      cases e with
      | responseFormatError => exact Or.inl rfl
    | ok b =>
      cases b with
      | true => exact Or.inr (Or.inl rfl)
      | false => exact Or.inr (Or.inr rfl)

/-- Witness for C4: a 200 JSON response with body `true` yields `true`. -/
theorem claim_C4_witness :
    enforce okResp = Except.ok true :=
  (claim_C4 okResp).1 rfl (by decide) rfl

/-- C5: `refresh_oauth_token` (the spec name `getAccessToken`) returns
exactly the value stored under `access_token` in the refresh response
when that field is present, and `none` (Python `None`) when it is
missing; being a total function into `Option`, it raises no exception
for a missing field. -/
theorem claim_C5 (env : ServerEnv) (cfg : Config) (rt scope : String) :
    (∀ v : JsonVal,
      dictGet (refresh_token_request env cfg rt scope) "access_token" = some v →
      refresh_oauth_token env cfg rt scope = some v) ∧
    (dictGet (refresh_token_request env cfg rt scope) "access_token" = none →
      refresh_oauth_token env cfg rt scope = none) :=
  ⟨fun _ h => h, fun h => h⟩

/-- Witness for C5: a refresh response carrying
`access_token = "tok123"` yields `some "tok123"`; one without the field
yields `none`. -/
theorem claim_C5_witness :
    refresh_oauth_token wServerEnv sampleCfg "good-rt" "" = some (JsonVal.str "tok123") ∧
    refresh_oauth_token wServerEnv sampleCfg "bad-rt" "" = none :=
  ⟨(claim_C5 wServerEnv sampleCfg "good-rt" "").1 (JsonVal.str "tok123") rfl,
   (claim_C5 wServerEnv sampleCfg "bad-rt" "").2 rfl⟩

/-- C6 counterexample: with `is_online` unset the built query does not
omit the online filter — the `isOnline` key is present, bound to the
empty string. -/
theorem claim_C6_counterexample :
    lookupStr (get_user_count_params sampleCfg none) "isOnline" ≠ none ∧
    lookupStr (get_user_count_params sampleCfg none) "isOnline" = some "" := by
  exact ⟨by decide, by decide⟩

/-- C6 (amended): the `isOnline` query parameter is an explicit
three-state filter and is always sent: value `""` when `is_online` is
unset (`None`), `"1"` when it is `true`, `"0"` when it is `false`. -/
theorem claim_C6 (cfg : Config) :
    lookupStr (get_user_count_params cfg none) "isOnline" = some "" ∧
    lookupStr (get_user_count_params cfg (some true)) "isOnline" = some "1" ∧
    lookupStr (get_user_count_params cfg (some false)) "isOnline" = some "0" :=
  ⟨rfl, rfl, rfl⟩

/-- C7: for every user record and each of the three modify operations,
the request is built with the owner field force-overwritten to the
configured organization name before serializing — the query identifier
is `org_name ++ "/" ++ name` and the serialized body is the full user
object with the overwritten owner — regardless of the owner the caller
had set. -/
theorem claim_C7 (cfg : Config) (method : String) (u : User) :
    (modify_user cfg method u).2.url = cfg.endpoint ++ "/api/" ++ method ∧
    (modify_user cfg method u).2.queryId = cfg.org_name ++ "/" ++ u.name ∧
    (modify_user cfg method u).2.body =
      User.to_dict { u with owner := cfg.org_name } ∧
    dictGet (modify_user cfg method u).2.body "owner" =
      some (JsonVal.str cfg.org_name) ∧
    add_user cfg u = modify_user cfg "add-user" u ∧
    update_user cfg u = modify_user cfg "update-user" u ∧
    delete_user cfg u = modify_user cfg "delete-user" u :=
  ⟨rfl, rfl, rfl, rfl, rfl, rfl, rfl⟩

/-- C8 counterexample: the claim fails on both of its halves.  For an
endpoint that does not contain `":8000"` the derived default front
endpoint is the endpoint itself — the same port, not a differing
front-end port — so the default does not use a differing port
convention for every configured endpoint (the derivation is a literal
substring replacement of `":8000"` by `":7001"`).  And a supplied
empty-string front endpoint is not stored unchanged: the source guard
`if front_endpoint:` is falsy on `""`, so the derived default is stored
instead. -/
theorem claim_C8_counterexample :
    storedFrontEndpoint "http://localhost:9000" none = "http://localhost:9000" ∧
    storedFrontEndpoint "http://localhost:8000" none = "http://localhost:7001" ∧
    storedFrontEndpoint "http://localhost:8000" (some "") = "http://localhost:7001" := by
  exact ⟨by decide, by decide, by decide⟩

/-- C8 (amended): a supplied non-empty `front_endpoint` is stored
unchanged; a supplied empty string counts as not supplied (Python
truthiness); when not supplied — absent or empty — the stored default
is the endpoint with every occurrence of the substring `":8000"`
replaced by `":7001"`, which leaves endpoints not containing `":8000"`
unchanged. -/
theorem claim_C8 (endpoint s : String) (h : s.isEmpty = false) :
    storedFrontEndpoint endpoint (some s) = s ∧
    storedFrontEndpoint endpoint (some "") = pyReplace endpoint ":8000" ":7001" ∧
    storedFrontEndpoint endpoint none = pyReplace endpoint ":8000" ":7001" := by
  refine ⟨?_, rfl, rfl⟩
  simp [storedFrontEndpoint, h]

/-- Witness for C8 at a concrete endpoint and front endpoint. -/
theorem claim_C8_witness :
    storedFrontEndpoint "http://localhost:8000" (some "https://front.example") =
      "https://front.example" ∧
    storedFrontEndpoint "http://localhost:8000" (some "") =
      pyReplace "http://localhost:8000" ":8000" ":7001" ∧
    storedFrontEndpoint "http://localhost:8000" none =
      pyReplace "http://localhost:8000" ":8000" ":7001" :=
  claim_C8 "http://localhost:8000" "https://front.example" rfl

/-- C9: `get_oauth_token` returns exactly the value of
`oauth_token_request` — the full decoded token-response mapping produced
by the server for the built payload, not merely an access-token string. -/
theorem claim_C9 (env : ServerEnv) (cfg : Config)
    (code username password : Option String) :
    get_oauth_token env cfg code username password =
      oauth_token_request env cfg code username password ∧
    get_oauth_token env cfg code username password =
      env.tokenResponse
        (get_payload_for_access_token_request cfg code username password) :=
  ⟨rfl, rfl⟩

/-- C10: each of the three modify operations mutates the supplied user
record in place: afterwards its owner equals the configured organization
name while its name and every other field are unchanged. -/
theorem claim_C10 (cfg : Config) (u : User) :
    ((add_user cfg u).1.owner = cfg.org_name ∧
     (add_user cfg u).1.name = u.name ∧
     (add_user cfg u).1.otherFields = u.otherFields) ∧
    ((update_user cfg u).1.owner = cfg.org_name ∧
     (update_user cfg u).1.name = u.name ∧
     (update_user cfg u).1.otherFields = u.otherFields) ∧
    ((delete_user cfg u).1.owner = cfg.org_name ∧
     (delete_user cfg u).1.name = u.name ∧
     (delete_user cfg u).1.otherFields = u.otherFields) :=
  ⟨⟨rfl, rfl, rfl⟩, ⟨rfl, rfl, rfl⟩, ⟨rfl, rfl, rfl⟩⟩

end Casdoor
